import Mathlib

/-!
Verification development for the yield-curve monitor pipeline
(`recession_qmark.py`): fetching two FRED treasury series, aligning them by
date (pandas `concat` on the date index followed by `dropna`), computing the
10y−2y spread, and classifying it against fixed thresholds.

Modelling conventions:
* calendar dates are day numbers (`Nat`);
* float values are rationals (`ℚ`); the threshold `-0.2` is `-(1/5)`;
* a pandas cell that holds `NaN` is `Option.none`;
* the HTTP layer is abstracted: a fetch call is given the response the
  network produced for it (`FetchOutcome`), and exceptions caught by the
  `try/except` are the `.failure` constructor.
-/

namespace Recession

/-- A fetched series as the script's dataframe stores it: rows
`(date, value)` in response order, where the value is `none` when FRED
reported a non-numeric placeholder (coerced to `NaN` by
`pd.to_numeric(..., errors='coerce')`). -/
abbrev Series := List (Nat × Option ℚ)

/-- A row of the aligned table `df` after `dropna`: date, `DGS10` value,
`DGS2` value. By construction both value fields are total (`ℚ`, not
`Option ℚ`): the table has no partial rows. -/
abbrev Row := Nat × ℚ × ℚ

/-- The three-state classification of the latest spread. -/
inductive Status where
  | Inverted
  | Flattening
  | Normal
deriving DecidableEq, Repr

/-- The three-state threshold map on a spread value, as the spec's
SpreadClassifier contract states it: `spread < -0.2 → Inverted`,
`-0.2 ≤ spread < 0 → Flattening`, `0 ≤ spread → Normal`. -/
def classify (spread : ℚ) : Status :=
  if spread < -(1/5) then Status.Inverted
  else if spread < 0 then Status.Flattening
  else Status.Normal

/-- The status computation of the script (lines 147–164): take the last row
of the aligned table, bind `ten_year` and `two_year`, compute
`spread = ten_year - two_year` and run the `if/elif/else` chain. -/
def status (df : List Row) (h : df ≠ []) : Status :=
  let ten_year := (df.getLast h).2.1
  let two_year := (df.getLast h).2.2
  let spread := ten_year - two_year
  if spread < -(1/5) then Status.Inverted
  else if spread < 0 then Status.Flattening
  else Status.Normal

/-! ## Alignment (`pd.concat(..., axis=1)` followed by `dropna`) -/

/-- The date index of a series. -/
def keys (s : Series) : List Nat := s.map Prod.fst

/-- The value a series' dataframe contributes at date `d` after the outer
join: the stored value at `d` when `d` is in the index (first occurrence;
series indexes are unique), `NaN` (`none`) when `d` is absent from the
index or the stored value itself is `NaN`. -/
def cell (s : Series) (d : Nat) : Option ℚ :=
  match s with
  | [] => none
  | (d', v) :: rest => if d' = d then v else cell rest d

/-- Sorted union of two sorted date indexes: the index of the dataframe
produced by `pd.concat(..., axis=1)` of two date-indexed frames. -/
def mergeU : List Nat → List Nat → List Nat
  | [], ys => ys
  | xs, [] => xs
  | x :: xs, y :: ys =>
    if x < y then x :: mergeU xs (y :: ys)
    else if y < x then y :: mergeU (x :: xs) ys
    else x :: mergeU xs ys

/-- `pd.concat([dgs10, dgs2], axis=1)` (line 135): outer join on the date
index; each row holds the (possibly `NaN`) cell of each series. -/
def concatOuter (a b : Series) : List (Nat × Option ℚ × Option ℚ) :=
  (mergeU (keys a) (keys b)).map (fun d => (d, cell a d, cell b d))

/-- `df.dropna()` (line 137): keep only rows where every cell is present. -/
def dropna (l : List (Nat × Option ℚ × Option ℚ)) : List Row :=
  l.filterMap (fun r =>
    match r with
    | (d, some x, some y) => some (d, x, y)
    | _ => none)

/-- The aligned table: `concat` then `dropna` (lines 135–137). -/
def align (a b : Series) : List Row := dropna (concatOuter a b)

/-- The row the aligned table keeps at date `d`, if any: the net per-date
effect of `concat` then `dropna`. -/
def alignRow (a b : Series) (d : Nat) : Option Row :=
  match cell a d, cell b d with
  | some x, some y => some (d, x, y)
  | _, _ => none

/-! ## Columns and the 5-row deltas (`st.metric` expressions) -/

/-- The `DGS10` column of the aligned table. -/
def col10 (df : List Row) : List ℚ := df.map (fun r => r.2.1)

/-- The `DGS2` column of the aligned table. -/
def col2 (df : List Row) : List ℚ := df.map (fun r => r.2.2)

/-- The `Spread` column, `df['Spread'] = df['DGS10'] - df['DGS2']`
(line 144). -/
def colSpread (df : List Row) : List ℚ := df.map (fun r => r.2.1 - r.2.2)

/-- pandas positional indexing `xs.iloc[i]`: a negative `i` counts from the
end; an out-of-bounds position raises `IndexError`. -/
def iloc (xs : List ℚ) (i : Int) : Except String ℚ :=
  let j : Int := if i < 0 then i + xs.length else i
  if h : 0 ≤ j ∧ j < (xs.length : Int) then
    Except.ok (xs.get ⟨j.toNat, by omega⟩)
  else Except.error "IndexError"

/-- The delta expression of each `st.metric` call (lines 173, 180, 187):
`column.iloc[-1] - column.iloc[-5]`. -/
def delta5 (xs : List ℚ) : Except String ℚ := do
  let a ← iloc xs (-1)
  let b ← iloc xs (-5)
  pure (a - b)

/-! ## The fetcher (`fetch_fred_data`, lines 73–105) -/

/-- One record of the FRED response's `observations` array, after the two
parsing steps the script applies to its columns: `date` is the result of
`pd.to_datetime` on the raw date string (`none` = malformed, which raises),
`value` the raw value field fed to `pd.to_numeric(..., errors='coerce')`. -/
structure RawObs where
  date : Option Nat
  value : Option ℚ
deriving DecidableEq, Repr

/-- `pd.to_numeric(..., errors='coerce')` on one raw value: a numeric
string parses to its number, a non-numeric placeholder (such as `"."`)
coerces to `NaN` — never an exception. Here the raw value field is already
abstracted as `Option ℚ` (`none` = non-numeric), so coercion is the
identity; it is kept as a named step to mirror line 99. -/
def toNumericCoerce (v : Option ℚ) : Option ℚ := v

/-- What the network produced for one request: `failure` covers every
exception the `try` block can see (connection error, timeout,
`raise_for_status` on a non-2xx reply, malformed JSON body); `jsonBody o`
is a parsed JSON object whose `observations` key holds `o` (`none` = the
key is absent, e.g. a FRED error object). -/
inductive FetchOutcome where
  | failure
  | jsonBody (observations : Option (List RawObs))
deriving DecidableEq, Repr

/-- `pd.to_datetime(df['date'])` over the whole column (line 98) is
all-or-nothing: one malformed date raises, the exception is caught by the
surrounding `except`, and the whole fetch returns `None`. On success the
kept frame is the `(date, value)` pairs in response order (line 100).
This step only runs on a frame that has the `date` column, i.e. on a
nonempty observations list — `pd.DataFrame([])` has no columns at all and
the column access itself raises (see `parseResponse`). -/
def parseDates : List RawObs → Option Series
  | [] => some []
  | o :: os =>
    match o.date, parseDates os with
    | some d, some rest => some ((d, toNumericCoerce o.value) :: rest)
    | _, _ => none

/-- The response-handling half of the fetcher (lines 91–105): any caught
exception gives `None`; a JSON body without the `observations` key gives
`None` (the `else` branch, line 103); an EMPTY observations list builds
`pd.DataFrame([])`, a frame with no columns, so the `df['date']` access
on line 98 raises `KeyError`, which the `except` catches — `None` again;
only a nonempty observations list reaches the column parsing. -/
def parseResponse : FetchOutcome → Option Series
  | FetchOutcome.failure => none
  | FetchOutcome.jsonBody none => none
  | FetchOutcome.jsonBody (some []) => none
  | FetchOutcome.jsonBody (some (o :: os)) => parseDates (o :: os)

/-- The query parameters of the issued request (lines 81–89). `api_key` is
`none` when the parameter is omitted, which happens exactly when the
effective key string is empty (`if api_key:` — Python truthiness). -/
structure FredRequest where
  series_id : String
  file_type : String
  observation_start : Nat
  observation_end : Nat
  api_key : Option String
deriving DecidableEq, Repr

/-- `fetch_fred_data` (lines 73–105): substitute the default credential
when `api_key is None` (`st.secrets.get('fred_api_key', 'd0d2…')`, modelled
by the `secrets` argument holding the store's value for that key), build
the request parameters, issue the request, and parse the response inside
`try/except`. Returns the issued request together with the fetched series
(`none` = the function returned `None`). -/
def fetch_fred_data (secrets : Option String) (series_id : String)
    (start_date end_date : Nat) (api_key : Option String)
    (response : FetchOutcome) : FredRequest × Option Series :=
  let key : String :=
    match api_key with
    | none => secrets.getD "d0d2c8e46964b4dd9fafc65fe9141aa8"
    | some k => k
  let req : FredRequest :=
    { series_id := series_id
      file_type := "json"
      observation_start := start_date
      observation_end := end_date
      api_key := if key = "" then none else some key }
  (req, parseResponse response)

/-! ## The module-level pipeline (lines 107–188) -/

/-- Everything one run of the script reads: the text-input credential, the
secret store's `fred_api_key` entry, today's date, and the network's
response to each of the two series requests. -/
structure Config where
  apiKeyInput : String
  secrets : Option String
  today : Nat
  out10 : FetchOutcome
  out2 : FetchOutcome
deriving DecidableEq, Repr

/-- The data bundle a successful run displays. -/
structure Report where
  range : Nat × Nat
  tenYear : ℚ
  twoYear : ℚ
  spread : ℚ
  asOf : Nat
  currentStatus : Status
  delta10 : Except String ℚ
  delta2 : Except String ℚ
  deltaSpread : Except String ℚ
  inversionDays : Nat
  totalDays : Nat
deriving Repr

/-- The four ways a run ends: `st.stop()` after the missing-key warning
(line 116), after the fetch-failure error (line 132), after the empty-table
error (line 141), or the full report. The three stop outcomes carry no
data: nothing partial is displayed. -/
inductive PipelineResult where
  | missingKey
  | fetchFailed
  | noData
  | report (r : Report)
deriving Repr

/-- The module-level script from the API-key input on (lines 107–188):
guard on an empty key, resolve the date range (today minus 365 days),
fetch both series, guard on fetch failure, align, guard on an empty table,
then compute the latest values, spread, status and statistics. -/
def pipeline (c : Config) : PipelineResult :=
  if c.apiKeyInput = "" then PipelineResult.missingKey
  else
    match (fetch_fred_data c.secrets "DGS10" (c.today - 365) c.today
            (some c.apiKeyInput) c.out10).2,
          (fetch_fred_data c.secrets "DGS2" (c.today - 365) c.today
            (some c.apiKeyInput) c.out2).2 with
    | some a, some b =>
      if hdf : align a b = [] then PipelineResult.noData
      else
        PipelineResult.report
          { range := (c.today - 365, c.today)
            tenYear := ((align a b).getLast hdf).2.1
            twoYear := ((align a b).getLast hdf).2.2
            spread := ((align a b).getLast hdf).2.1 - ((align a b).getLast hdf).2.2
            asOf := ((align a b).getLast hdf).1
            currentStatus := status (align a b) hdf
            delta10 := delta5 (col10 (align a b))
            delta2 := delta5 (col2 (align a b))
            deltaSpread := delta5 (colSpread (align a b))
            inversionDays := ((colSpread (align a b)).filter (fun q => q < 0)).length
            totalDays := (align a b).length }
    | _, _ => PipelineResult.fetchFailed

/-! ## Concrete data for the evaluated instances -/

/-- Series A of the spec's §8 scenario: `[(d1,4.0),(d2,4.1)]`. -/
def exA : Series := [(1, some 4), (2, some (41/10))]

/-- Series B of the spec's §8 scenario: `[(d1,4.5),(d2,3.9)]`. -/
def exB : Series := [(1, some (9/2)), (2, some (39/10))]

/-- A 4-row aligned table (fewer than the 5 rows the delta needs). -/
def df4 : List Row := [(0, 1, 1), (1, 2, 1), (2, 3, 1), (3, 4, 1)]

/-- A 5-row aligned table (just enough rows for the delta). -/
def df5 : List Row := [(0, 1, 1), (1, 2, 1), (2, 3, 1), (3, 4, 1), (4, 5, 1)]

/-- Observations with one date FRED reports as a holiday placeholder. -/
def obsHoliday : List RawObs := [⟨some 10, some 4⟩, ⟨some 11, none⟩]

/-- Observations containing a malformed date. -/
def obsBadDate : List RawObs := [⟨none, some 4⟩]

/-- A run whose first fetch fails on the network (the second succeeds). -/
def cfgFetchFail : Config :=
  { apiKeyInput := "key", secrets := none, today := 400
    out10 := FetchOutcome.failure
    out2 := FetchOutcome.jsonBody (some [⟨some 11, some 4⟩]) }

/-- A run where both fetches succeed but share no usable date. -/
def cfgNoData : Config :=
  { apiKeyInput := "key", secrets := none, today := 400
    out10 := FetchOutcome.jsonBody (some [⟨some 10, some 4⟩])
    out2 := FetchOutcome.jsonBody (some [⟨some 11, some 4⟩]) }

/-- A successful run, with an empty secret store. -/
def cfgRunA : Config :=
  { apiKeyInput := "key", secrets := none, today := 400
    out10 := FetchOutcome.jsonBody (some obsHoliday)
    out2 := FetchOutcome.jsonBody (some obsHoliday) }

/-- The same run with a different secret store entry: every input the
pipeline's output may depend on agrees with `cfgRunA`. -/
def cfgRunB : Config :=
  { apiKeyInput := "key", secrets := some "other-secret", today := 400
    out10 := FetchOutcome.jsonBody (some obsHoliday)
    out2 := FetchOutcome.jsonBody (some obsHoliday) }

/-! ## Auxiliary lemmas -/

lemma get_congr {α : Type} (xs : List α) {i j : Nat} (hi : i < xs.length)
    (hj : j < xs.length) (hij : i = j) : xs.get ⟨i, hi⟩ = xs.get ⟨j, hj⟩ := by
  subst hij
  rfl

lemma delta5_error_of_short (xs : List ℚ) (h : xs.length < 5) :
    delta5 xs = Except.error "IndexError" := by
  unfold delta5 iloc
  rcases Nat.eq_zero_or_pos xs.length with h0 | h0
  · rw [dif_neg]
    · rfl
    · omega
  · rw [dif_pos (by omega), dif_neg (by omega)]
    rfl

lemma delta5_ok_of_long (xs : List ℚ) (h : 5 ≤ xs.length) :
    delta5 xs =
      Except.ok (xs.get ⟨xs.length - 1, by omega⟩ - xs.get ⟨xs.length - 5, by omega⟩) := by
  unfold delta5 iloc
  rw [dif_pos (by omega), dif_pos (by omega)]
  show Except.ok _ = _
  refine congrArg Except.ok (congrArg₂ (fun u v : ℚ => u - v) ?_ ?_) <;>
    exact get_congr xs _ _ (by omega)

lemma delta5_ok_col (df : List Row) (f : Row → ℚ) (h : 5 ≤ df.length) :
    delta5 (df.map f) =
      Except.ok (f (df.get ⟨df.length - 1, by omega⟩) -
        f (df.get ⟨df.length - 5, by omega⟩)) := by
  rw [delta5_ok_of_long _ (by simpa using h)]
  refine congrArg Except.ok (congrArg₂ (fun u v : ℚ => u - v) ?_ ?_) <;>
  · rw [List.get_map]
    exact congrArg f (get_congr df _ _ (by simp))

lemma mergeU_nil_left (ys : List Nat) : mergeU [] ys = ys := by
  simp [mergeU]

lemma mergeU_nil_right (xs : List Nat) : mergeU xs [] = xs := by
  cases xs <;> simp [mergeU]

lemma mergeU_cons_cons (x y : Nat) (xs ys : List Nat) :
    mergeU (x :: xs) (y :: ys) =
      if x < y then x :: mergeU xs (y :: ys)
      else if y < x then y :: mergeU (x :: xs) ys
      else x :: mergeU xs ys := by
  simp [mergeU]

lemma mem_mergeU (d : Nat) : ∀ xs ys : List Nat,
    d ∈ mergeU xs ys ↔ d ∈ xs ∨ d ∈ ys := by
  intro xs
  induction xs with
  | nil =>
    intro ys
    simp [mergeU_nil_left]
  | cons x xs ih =>
    intro ys
    induction ys with
    | nil => simp [mergeU_nil_right]
    | cons y ys ihy =>
      rw [mergeU_cons_cons]
      split_ifs with h1 h2
      · simp only [List.mem_cons, ih]
        tauto
      · simp only [List.mem_cons, ihy]
        tauto
      · have hxy : x = y := by omega
        subst hxy
        simp only [List.mem_cons, ih]
        tauto

lemma pairwise_mergeU : ∀ xs ys : List Nat, List.Pairwise (· < ·) xs →
    List.Pairwise (· < ·) ys → List.Pairwise (· < ·) (mergeU xs ys) := by
  intro xs
  induction xs with
  | nil =>
    intro ys _ hys
    simpa [mergeU_nil_left] using hys
  | cons x xs ih =>
    intro ys
    induction ys with
    | nil =>
      intro hxs _
      simpa [mergeU_nil_right] using hxs
    | cons y ys ihy =>
      intro hxs hys
      rcases List.pairwise_cons.mp hxs with ⟨hx, hxs'⟩
      rcases List.pairwise_cons.mp hys with ⟨hy, hys'⟩
      rw [mergeU_cons_cons]
      split_ifs with h1 h2
      · refine List.pairwise_cons.mpr ⟨?_, ih (y :: ys) hxs' hys⟩
        intro z hz
        rcases (mem_mergeU z xs (y :: ys)).mp hz with hzx | hzy
        · exact hx z hzx
        · rcases List.mem_cons.mp hzy with rfl | hzy'
          · exact h1
          · exact lt_trans h1 (hy z hzy')
      · refine List.pairwise_cons.mpr ⟨?_, ihy hxs hys'⟩
        intro z hz
        rcases (mem_mergeU z (x :: xs) ys).mp hz with hzx | hzy
        · rcases List.mem_cons.mp hzx with rfl | hzx'
          · exact h2
          · exact lt_trans h2 (hx z hzx')
        · exact hy z hzy
      · have hxy : x = y := by omega
        subst hxy
        refine List.pairwise_cons.mpr ⟨?_, ih ys hxs' hys'⟩
        intro z hz
        rcases (mem_mergeU z xs ys).mp hz with hzx | hzy
        · exact hx z hzx
        · exact hy z hzy

lemma cell_mem {s : Series} {d : Nat} {x : ℚ} (h : cell s d = some x) :
    (d, some x) ∈ s := by
  induction s with
  | nil => simp [cell] at h
  | cons p rest ih =>
    obtain ⟨e, v⟩ := p
    by_cases hd : e = d
    · subst hd
      rw [cell, if_pos rfl] at h
      exact List.mem_cons.mpr (Or.inl (by rw [h]))
    · rw [cell, if_neg hd] at h
      exact List.mem_cons_of_mem _ (ih h)

lemma cell_mem_keys {s : Series} {d : Nat} {x : ℚ} (h : cell s d = some x) :
    d ∈ keys s :=
  List.mem_map.mpr ⟨(d, some x), cell_mem h, rfl⟩

lemma mem_cell {s : Series} (hnd : (keys s).Nodup) {d : Nat} {x : ℚ}
    (h : (d, some x) ∈ s) : cell s d = some x := by
  induction s with
  | nil => simp at h
  | cons p rest ih =>
    obtain ⟨e, v⟩ := p
    simp only [keys, List.map_cons, List.nodup_cons] at hnd
    rcases List.mem_cons.mp h with heq | hmem
    · obtain ⟨hd, hv⟩ := Prod.mk.injEq .. ▸ heq
      rw [cell, if_pos hd.symm, hv.symm]
    · have hd : e ≠ d := by
        intro he
        subst he
        exact hnd.1 (List.mem_map.mpr ⟨(e, some x), hmem, rfl⟩)
      rw [cell, if_neg hd]
      exact ih hnd.2 hmem

lemma alignRow_eq_some {a b : Series} {e d : Nat} {x y : ℚ} :
    alignRow a b e = some (d, x, y) ↔
      e = d ∧ cell a e = some x ∧ cell b e = some y := by
  unfold alignRow
  rcases cell a e with _ | x₀ <;> rcases cell b e with _ | y₀ <;>
    simp [and_assoc, eq_comm]

lemma align_eq_filterMap (a b : Series) :
    align a b = (mergeU (keys a) (keys b)).filterMap (alignRow a b) := by
  unfold align dropna concatOuter
  generalize mergeU (keys a) (keys b) = L
  induction L with
  | nil => rfl
  | cons d L ih =>
    rw [List.map_cons, List.filterMap_cons, List.filterMap_cons]
    rcases hca : cell a d with _ | x <;> rcases hcb : cell b d with _ | y <;>
      simp [alignRow, hca, hcb, ih]

lemma mem_align {a b : Series} {d : Nat} {x y : ℚ} :
    (d, x, y) ∈ align a b ↔ cell a d = some x ∧ cell b d = some y := by
  rw [align_eq_filterMap, List.mem_filterMap]
  constructor
  · rintro ⟨e, _, hrow⟩
    rcases alignRow_eq_some.mp hrow with ⟨rfl, hca, hcb⟩
    exact ⟨hca, hcb⟩
  · rintro ⟨hca, hcb⟩
    exact ⟨d, (mem_mergeU d _ _).mpr (Or.inl (cell_mem_keys hca)),
      alignRow_eq_some.mpr ⟨rfl, hca, hcb⟩⟩

lemma map_fst_filterMap_alignRow (a b : Series) (L : List Nat) :
    (L.filterMap (alignRow a b)).map Prod.fst =
      L.filter (fun d => ((cell a d).isSome && (cell b d).isSome)) := by
  induction L with
  | nil => rfl
  | cons d L ih =>
    rcases hca : cell a d with _ | x <;> rcases hcb : cell b d with _ | y <;>
      simp [List.filterMap_cons, List.filter_cons, alignRow, hca, hcb, ih]

lemma parseDates_none_of_bad_date {obs : List RawObs} {o : RawObs}
    (ho : o ∈ obs) (hd : o.date = none) : parseDates obs = none := by
  induction obs with
  | nil => simp at ho
  | cons p rest ih =>
    rcases List.mem_cons.mp ho with rfl | hmem
    · simp [parseDates, hd]
    · rcases hp : p.date with _ | d <;> simp [parseDates, hp, ih hmem]

lemma parseDates_all_some (obs : List RawObs) (h : ∀ o ∈ obs, o.date.isSome) :
    parseDates obs =
      some (obs.map (fun o => (o.date.getD 0, toNumericCoerce o.value))) := by
  induction obs with
  | nil => rfl
  | cons p rest ih =>
    have hp : p.date.isSome := h p (List.mem_cons_self ..)
    rcases hping : p.date with _ | d
    · rw [hping] at hp
      simp at hp
    · simp [parseDates, hping,
        ih (fun o ho => h o (List.mem_cons_of_mem _ ho))]

/-! ## Claims -/

/-- C1: on every non-empty aligned table the script's status computation
equals the three-state classifier applied to the spread
`tenYear - twoYear` of the last row, and the classifier maps
`spread < -0.2` to Inverted, `-0.2 ≤ spread < 0` to Flattening and
`0 ≤ spread` to Normal; in particular a spread of exactly `0` is Normal
and a spread of exactly `-0.2` is Flattening. -/
theorem C1_classifier_thresholds (df : List Row) (h : df ≠ []) :
    status df h = classify ((df.getLast h).2.1 - (df.getLast h).2.2) ∧
    (∀ s : ℚ, s < -(1/5) → classify s = Status.Inverted) ∧
    (∀ s : ℚ, -(1/5) ≤ s → s < 0 → classify s = Status.Flattening) ∧
    (∀ s : ℚ, 0 ≤ s → classify s = Status.Normal) ∧
    classify 0 = Status.Normal ∧
    classify (-(1/5)) = Status.Flattening := by
  refine ⟨rfl, ?_, ?_, ?_, ?_, ?_⟩
  · intro s hs
    unfold classify
    rw [if_pos hs]
  · intro s h1 h2
    unfold classify
    rw [if_neg (not_lt.mpr h1), if_pos h2]
  · intro s h0
    unfold classify
    rw [if_neg (not_lt.mpr (by linarith : -(1/5 : ℚ) ≤ s)), if_neg (not_lt.mpr h0)]
  · norm_num [classify]
  · norm_num [classify]

/-- C1 witness: the theorem applied to the one-row table
`[(0, 3, 2)]`, whose spread `1` is Normal. -/
theorem C1_witness :
    status [((0 : Nat), (3 : ℚ), (2 : ℚ))] (List.cons_ne_nil _ _) =
      classify (([((0 : Nat), (3 : ℚ), (2 : ℚ))].getLast (List.cons_ne_nil _ _)).2.1 -
        ([((0 : Nat), (3 : ℚ), (2 : ℚ))].getLast (List.cons_ne_nil _ _)).2.2) ∧
    classify 0 = Status.Normal :=
  ⟨(C1_classifier_thresholds _ (List.cons_ne_nil _ _)).1,
   (C1_classifier_thresholds [((0 : Nat), (3 : ℚ), (2 : ℚ))]
      (List.cons_ne_nil _ _)).2.2.2.2.1⟩

/-- C2 counterexample: on a 4-row aligned table the delta expression
`df['DGS10'].iloc[-1] - df['DGS10'].iloc[-5]` raises `IndexError` — it is
not omitted gracefully as the claim states. -/
theorem C2_counterexample :
    df4.length < 5 ∧ delta5 (col10 df4) = Except.error "IndexError" := by
  constructor
  · decide
  · exact delta5_error_of_short _ (by decide)

/-- C2 amended: with fewer than 5 aligned rows each of the three 5-row
delta expressions raises `IndexError` (the statistics are not produced);
with at least 5 rows each delta equals the latest value minus the value 5
rows earlier, for the 10-year column, the 2-year column and the spread
column. -/
theorem C2_delta5_behavior (df : List Row) :
    (df.length < 5 →
      delta5 (col10 df) = Except.error "IndexError" ∧
      delta5 (col2 df) = Except.error "IndexError" ∧
      delta5 (colSpread df) = Except.error "IndexError") ∧
    (∀ h : 5 ≤ df.length,
      delta5 (col10 df) =
        Except.ok ((df.get ⟨df.length - 1, by omega⟩).2.1 -
          (df.get ⟨df.length - 5, by omega⟩).2.1) ∧
      delta5 (col2 df) =
        Except.ok ((df.get ⟨df.length - 1, by omega⟩).2.2 -
          (df.get ⟨df.length - 5, by omega⟩).2.2) ∧
      delta5 (colSpread df) =
        Except.ok (((df.get ⟨df.length - 1, by omega⟩).2.1 -
            (df.get ⟨df.length - 1, by omega⟩).2.2) -
          ((df.get ⟨df.length - 5, by omega⟩).2.1 -
            (df.get ⟨df.length - 5, by omega⟩).2.2))) := by
  constructor
  · intro h
    refine ⟨delta5_error_of_short _ ?_, delta5_error_of_short _ ?_,
      delta5_error_of_short _ ?_⟩ <;> simp [col10, col2, colSpread, h]
  · intro h
    refine ⟨?_, ?_, ?_⟩
    · simp only [col10]
      exact delta5_ok_col df _ h
    · simp only [col2]
      exact delta5_ok_col df _ h
    · simp only [colSpread]
      exact delta5_ok_col df _ h

/-- C2 witness: the amended theorem applied to the 5-row table `df5`. -/
theorem C2_witness :
    delta5 (col10 df5) =
      Except.ok ((df5.get ⟨df5.length - 1, by norm_num [df5]⟩).2.1 -
        (df5.get ⟨df5.length - 5, by norm_num [df5]⟩).2.1) :=
  ((C2_delta5_behavior df5).2 (by norm_num [df5])).1

/-- C3: for series with strictly ascending date indexes, the aligned table
holds a row at exactly the dates at which BOTH series carry a present
(non-absent) value; each kept row's two value fields are the values the
respective series carries at that date (no partial rows, the type of `Row`
admitting none); and the rows are in ascending date order. -/
theorem C3_alignment (a b : Series)
    (ha : List.Pairwise (· < ·) (keys a)) (hb : List.Pairwise (· < ·) (keys b)) :
    (∀ d : Nat, (∃ x y : ℚ, (d, x, y) ∈ align a b) ↔
      ((∃ x : ℚ, (d, some x) ∈ a) ∧ (∃ y : ℚ, (d, some y) ∈ b))) ∧
    (∀ (d : Nat) (x y : ℚ), (d, x, y) ∈ align a b →
      (d, some x) ∈ a ∧ (d, some y) ∈ b) ∧
    List.Pairwise (· < ·) ((align a b).map Prod.fst) := by
  have hna : (keys a).Nodup := ha.imp (fun hlt => Nat.ne_of_lt hlt)
  have hnb : (keys b).Nodup := hb.imp (fun hlt => Nat.ne_of_lt hlt)
  refine ⟨?_, ?_, ?_⟩
  · intro d
    constructor
    · rintro ⟨x, y, hmem⟩
      rcases mem_align.mp hmem with ⟨hca, hcb⟩
      exact ⟨⟨x, cell_mem hca⟩, ⟨y, cell_mem hcb⟩⟩
    · rintro ⟨⟨x, hxa⟩, ⟨y, hyb⟩⟩
      exact ⟨x, y, mem_align.mpr ⟨mem_cell hna hxa, mem_cell hnb hyb⟩⟩
  · intro d x y hmem
    rcases mem_align.mp hmem with ⟨hca, hcb⟩
    exact ⟨cell_mem hca, cell_mem hcb⟩
  · rw [align_eq_filterMap, map_fst_filterMap_alignRow]
    exact (pairwise_mergeU _ _ ha hb).filter _

/-- C3 witness: the theorem applied to the spec's §8 scenario series. -/
theorem C3_witness :
    (∃ x y : ℚ, ((2 : Nat), x, y) ∈ align exA exB) ∧
    List.Pairwise (· < ·) ((align exA exB).map Prod.fst) :=
  ⟨((C3_alignment exA exB (by norm_num [exA, keys]) (by norm_num [exB, keys])).1
      2).mpr ⟨⟨41/10, by norm_num [exA]⟩, ⟨39/10, by norm_num [exB]⟩⟩,
   (C3_alignment exA exB (by norm_num [exA, keys]) (by norm_num [exB, keys])).2.2⟩

/-- C6: alignment is commutative in membership — aligning (A, B) and
(B, A) keeps exactly the same dates, rows correspond with the two value
fields swapped, and the spread computed from matching fields (the value
from A minus the value from B) is the same number, hence has the same
sign, in both orders. -/
theorem C6_align_commutative (a b : Series) :
    (∀ d : Nat, d ∈ (align a b).map Prod.fst ↔ d ∈ (align b a).map Prod.fst) ∧
    (∀ (d : Nat) (x y : ℚ), (d, x, y) ∈ align a b ↔ (d, y, x) ∈ align b a) ∧
    (∀ (d : Nat) (x y u v : ℚ), (d, x, y) ∈ align a b →
      (d, u, v) ∈ align b a → x - y = v - u) := by
  have hswap : ∀ (d : Nat) (x y : ℚ),
      (d, x, y) ∈ align a b ↔ (d, y, x) ∈ align b a := by
    intro d x y
    rw [mem_align, mem_align]
    exact and_comm
  refine ⟨?_, hswap, ?_⟩
  · intro d
    simp only [List.mem_map]
    constructor
    · rintro ⟨⟨e, x, y⟩, hmem, hfst⟩
      exact ⟨(e, y, x), (hswap e x y).mp hmem, hfst⟩
    · rintro ⟨⟨e, y, x⟩, hmem, hfst⟩
      exact ⟨(e, x, y), (hswap e x y).mpr hmem, hfst⟩
  · intro d x y u v h1 h2
    rcases mem_align.mp h1 with ⟨hca, hcb⟩
    rcases mem_align.mp h2 with ⟨hcb', hca'⟩
    have hx : x = v := Option.some.inj (hca.symm.trans hca')
    have hy : y = u := Option.some.inj (hcb.symm.trans hcb')
    rw [hx, hy]

/-- C6 witness: the theorem applied to the §8 scenario series at date 1,
where the (A, B) row is `(1, 4, 4.5)` and the (B, A) row is
`(1, 4.5, 4)`. -/
theorem C6_witness :
    (((1 : Nat), (4 : ℚ), (9/2 : ℚ)) ∈ align exA exB ↔
      ((1 : Nat), (9/2 : ℚ), (4 : ℚ)) ∈ align exB exA) ∧
    (4 : ℚ) - 9/2 = 4 - 9/2 :=
  ⟨(C6_align_commutative exA exB).2.1 1 4 (9/2),
   (C6_align_commutative exA exB).2.2 1 4 (9/2) (9/2) 4
     (mem_align.mpr ⟨by norm_num [cell, exA], by norm_num [cell, exB]⟩)
     (mem_align.mpr ⟨by norm_num [cell, exB], by norm_num [cell, exA]⟩)⟩

/-- C4 counterexample: a successful query over an empty range — a JSON
body whose `observations` list is empty — returns the very same `none` a
network failure returns: `pd.DataFrame([])` has no `date` column, the
column access raises `KeyError` inside the `try`, and the `except`
returns `None`. The two results are NOT distinguishable. -/
theorem C4_counterexample :
    ((fetch_fred_data none "DGS10" 0 365 (some "key")
        (FetchOutcome.jsonBody (some []))).2 = none) ∧
    ((fetch_fred_data none "DGS10" 0 365 (some "key")
        FetchOutcome.failure).2 = none) :=
  ⟨rfl, rfl⟩

/-- C4 amended: for every series identifier, date range and credential,
any exception the `try` block catches (network error, timeout, non-2xx,
malformed JSON) and any parse failure (a malformed date in the
observations) makes `fetch_fred_data` return the explicit no-data value
`none` rather than throwing — but a successful query over an empty range
of observations produces that same `none` (the empty frame's missing
`date` column raises `KeyError` inside the `try`), so it is not
distinguishable from failure at the function's interface. -/
theorem C4_fetch_failure_absence (secrets : Option String) (sid : String)
    (sd ed : Nat) (key : Option String) :
    ((fetch_fred_data secrets sid sd ed key FetchOutcome.failure).2 = none) ∧
    (∀ (obs : List RawObs) (o : RawObs), o ∈ obs → o.date = none →
      (fetch_fred_data secrets sid sd ed key
        (FetchOutcome.jsonBody (some obs))).2 = none) ∧
    ((fetch_fred_data secrets sid sd ed key
        (FetchOutcome.jsonBody (some []))).2 =
      (fetch_fred_data secrets sid sd ed key FetchOutcome.failure).2) := by
  refine ⟨rfl, ?_, rfl⟩
  intro obs o ho hd
  show parseResponse (FetchOutcome.jsonBody (some obs)) = none
  cases obs with
  | nil => rfl
  | cons p os =>
    show parseDates (p :: os) = none
    exact parseDates_none_of_bad_date ho hd

/-- C4 witness: the amended theorem applied to a response holding one
observation with a malformed date. -/
theorem C4_witness :
    (fetch_fred_data none "DGS10" 0 365 (some "key")
      (FetchOutcome.jsonBody (some obsBadDate))).2 = none :=
  (C4_fetch_failure_absence none "DGS10" 0 365 (some "key")).2.1 obsBadDate
    ⟨none, some 4⟩ (by simp [obsBadDate]) rfl

/-- C5: with a non-empty key, if either fetch returns the no-data value
the run ends `fetchFailed` (before any alignment: the result carries no
table); if both fetches succeed and the aligned table is empty the run
ends `noData` (before any classification: the result carries no status);
neither outcome carries any partial report. -/
theorem C5_abort_policy (c : Config) (hk : c.apiKeyInput ≠ "") :
    (parseResponse c.out10 = none ∨ parseResponse c.out2 = none →
      pipeline c = PipelineResult.fetchFailed) ∧
    (∀ sa sb : Series, parseResponse c.out10 = some sa →
      parseResponse c.out2 = some sb → align sa sb = [] →
      pipeline c = PipelineResult.noData) := by
  constructor
  · intro hfail
    unfold pipeline
    rw [if_neg hk]
    rcases hfail with hf | hf
    · rw [show (fetch_fred_data c.secrets "DGS10" (c.today - 365) c.today
          (some c.apiKeyInput) c.out10).2 = none from hf]
    · rw [show (fetch_fred_data c.secrets "DGS2" (c.today - 365) c.today
          (some c.apiKeyInput) c.out2).2 = none from hf]
      rcases h10 : (fetch_fred_data c.secrets "DGS10" (c.today - 365) c.today
          (some c.apiKeyInput) c.out10).2 with _ | sa <;> rfl
  · intro sa sb h10 h2 hempty
    unfold pipeline
    rw [if_neg hk]
    rw [show (fetch_fred_data c.secrets "DGS10" (c.today - 365) c.today
        (some c.apiKeyInput) c.out10).2 = some sa from h10]
    rw [show (fetch_fred_data c.secrets "DGS2" (c.today - 365) c.today
        (some c.apiKeyInput) c.out2).2 = some sb from h2]
    show (if hdf : align sa sb = [] then PipelineResult.noData else _) = _
    rw [dif_pos hempty]

/-- C5 witness: the theorem applied to a run whose first fetch fails on
the network, and to a run whose two series share no date. -/
theorem C5_witness :
    pipeline cfgFetchFail = PipelineResult.fetchFailed ∧
    pipeline cfgNoData = PipelineResult.noData :=
  ⟨(C5_abort_policy cfgFetchFail (by simp [cfgFetchFail])).1 (Or.inl rfl),
   (C5_abort_policy cfgNoData (by simp [cfgNoData])).2
     [(10, some 4)] [(11, some 4)] rfl rfl
     (by simp [align, dropna, concatOuter, mergeU, keys, cell])⟩

/-- C7: a response containing a row (so a nonempty observations list)
whose dates all parse is parsed successfully, keeping one row per
observation in order — a row whose value field is non-numeric is retained
with an absent (`none`) value, not dropped and not an error; so the row
count always equals the observation count, and only downstream alignment
removes the absent-valued rows. -/
theorem C7_placeholder_retained (obs : List RawObs) (hne : obs ≠ [])
    (h : ∀ o ∈ obs, o.date.isSome) :
    parseResponse (FetchOutcome.jsonBody (some obs)) =
      some (obs.map (fun o => (o.date.getD 0, toNumericCoerce o.value))) ∧
    toNumericCoerce none = none ∧
    (∀ s : Series, parseResponse (FetchOutcome.jsonBody (some obs)) = some s →
      s.length = obs.length) := by
  have hmain : parseResponse (FetchOutcome.jsonBody (some obs)) =
      some (obs.map (fun o => (o.date.getD 0, toNumericCoerce o.value))) := by
    cases obs with
    | nil => exact absurd rfl hne
    | cons p os =>
      show parseDates (p :: os) = _
      exact parseDates_all_some _ h
  refine ⟨hmain, rfl, ?_⟩
  intro s hs
  rw [hmain] at hs
  cases Option.some.inj hs
  simp

/-- C7 witness: the theorem applied to a two-row response whose second
value is the holiday placeholder: both rows are kept and the placeholder
row carries an absent value. -/
theorem C7_witness :
    parseResponse (FetchOutcome.jsonBody (some obsHoliday)) =
      some [(10, some 4), (11, none)] := by
  rw [(C7_placeholder_retained obsHoliday (by simp [obsHoliday])
    (by simp [obsHoliday])).1]
  simp [obsHoliday, toNumericCoerce]

/-- C8: the pipeline is deterministic and stateless — its outcome is a
function of the credential, today's date and the two fetched responses
alone; two runs agreeing on those (here even with different secret
stores) produce the same result. -/
theorem C8_deterministic (c₁ c₂ : Config)
    (hk : c₁.apiKeyInput = c₂.apiKeyInput) (ht : c₁.today = c₂.today)
    (h10 : c₁.out10 = c₂.out10) (h2 : c₁.out2 = c₂.out2) :
    pipeline c₁ = pipeline c₂ := by
  obtain ⟨k₁, s₁, t₁, a₁, b₁⟩ := c₁
  obtain ⟨k₂, s₂, t₂, a₂, b₂⟩ := c₂
  simp only at hk ht h10 h2
  subst hk ht h10 h2
  simp only [pipeline, fetch_fred_data]

/-- C8 witness: two concrete runs that differ only in the secret store
give the same result. -/
theorem C8_witness : pipeline cfgRunA = pipeline cfgRunB :=
  C8_deterministic cfgRunA cfgRunB rfl rfl rfl rfl

/-- C9 counterexample: a caller-supplied non-`None` empty key is not
forwarded — the issued request carries no `api_key` parameter (Python
`if api_key:` truthiness), and the same happens with `api_key = None`
when the secret store holds the empty string; so a request CAN be sent
without an `api_key` parameter. -/
theorem C9_counterexample :
    ((fetch_fred_data none "DGS10" 0 365 (some "")
        FetchOutcome.failure).1.api_key = none) ∧
    ((fetch_fred_data (some "") "DGS10" 0 365 none
        FetchOutcome.failure).1.api_key = none) :=
  ⟨rfl, rfl⟩

/-- C9 amended: with `api_key = None` the fetcher substitutes the secrets
entry, falling back to the hardcoded key literal, and the `api_key`
parameter is included iff the resulting string is nonempty — in
particular it is always included when the secret store has no entry; a
caller-supplied nonempty key is used exactly as given. -/
theorem C9_api_key_parameter (secrets : Option String) (sid : String)
    (sd ed : Nat) (w : FetchOutcome) :
    ((fetch_fred_data secrets sid sd ed none w).1.api_key =
      (if secrets.getD "d0d2c8e46964b4dd9fafc65fe9141aa8" = "" then none
        else some (secrets.getD "d0d2c8e46964b4dd9fafc65fe9141aa8"))) ∧
    ((fetch_fred_data none sid sd ed none w).1.api_key =
      some "d0d2c8e46964b4dd9fafc65fe9141aa8") ∧
    (∀ k : String, k ≠ "" →
      (fetch_fred_data secrets sid sd ed (some k) w).1.api_key = some k) := by
  refine ⟨rfl, rfl, ?_⟩
  intro k hk
  show (if k = "" then none else some k) = some k
  rw [if_neg hk]

/-- C9 witness: a nonempty caller key is forwarded verbatim. -/
theorem C9_witness :
    (fetch_fred_data none "DGS10" 0 365 (some "myFredKey")
      FetchOutcome.failure).1.api_key = some "myFredKey" :=
  (C9_api_key_parameter none "DGS10" 0 365 FetchOutcome.failure).2.2
    "myFredKey" (by simp)

/-- C10: a response that parses as JSON but has no `observations` key
makes `fetch_fred_data` return `none` — the very value a network failure
produces, so the two are indistinguishable at the function's interface. -/
theorem C10_missing_observations_key (secrets : Option String) (sid : String)
    (sd ed : Nat) (key : Option String) :
    ((fetch_fred_data secrets sid sd ed key
        (FetchOutcome.jsonBody none)).2 = none) ∧
    ((fetch_fred_data secrets sid sd ed key (FetchOutcome.jsonBody none)).2 =
      (fetch_fred_data secrets sid sd ed key FetchOutcome.failure).2) :=
  ⟨rfl, rfl⟩

end Recession
